import Mathlib

/-!
Verification of the `wgpu_learning` crate (a minimal wgpu "hello window"
program).  The development shallowly embeds `src/lib.rs`: the `State`
struct becomes a Lean structure holding the observable fields, every
method becomes a pure function returning the updated state together with
an explicit trace of the side effects it performs (surface configuration,
command submission, presentation, loop-exit signal, log lines), and the
event-loop closure in `run` becomes a per-event dispatch function.
External collaborators (the GPU backend and the windowing system) are
modelled as explicit inputs: surface-creation / adapter / device results,
surface capabilities, and the outcome of `get_current_texture`.
-/

namespace WgpuLearning

/-- `winit::dpi::PhysicalSize<u32>`. -/
structure PhysicalSize where
  width : Nat
  height : Nat
deriving DecidableEq, Repr

/-- A `wgpu::TextureFormat`, abstracted to an identifier plus the one
predicate the code consults, `TextureFormat::is_srgb`. -/
structure TextureFormat where
  ident : Nat
  is_srgb : Bool
deriving DecidableEq, Repr

/-- A `wgpu::PresentMode`, abstracted to an identifier. -/
structure PresentMode where
  ident : Nat
deriving DecidableEq, Repr

/-- A `wgpu::CompositeAlphaMode`, abstracted to an identifier. -/
structure AlphaMode where
  ident : Nat
deriving DecidableEq, Repr

/-- `wgpu::TextureUsages` as used by the code (only RENDER_ATTACHMENT). -/
inductive TextureUsages where
  | RENDER_ATTACHMENT
deriving DecidableEq, Repr

/-- `wgpu::SurfaceConfiguration`. -/
structure SurfaceConfiguration where
  usage : TextureUsages
  format : TextureFormat
  width : Nat
  height : Nat
  present_mode : PresentMode
  alpha_mode : AlphaMode
  view_formats : List TextureFormat
deriving DecidableEq, Repr

/-- `wgpu::SurfaceCapabilities`: the parts the code reads. -/
structure SurfaceCapabilities where
  formats : List TextureFormat
  present_modes : List PresentMode
  alpha_modes : List AlphaMode
deriving DecidableEq, Repr

/-- `wgpu::Color` (f64 components; the code only stores the literals
0.1, 0.2, 0.3, 1.0 and never computes with them, so exact rationals
model them). -/
structure Color where
  r : ℚ
  g : ℚ
  b : ℚ
  a : ℚ
deriving DecidableEq, Repr

/-- `wgpu::LoadOp<Color>`. -/
inductive LoadOp where
  | Clear (color : Color)
  | Load
deriving DecidableEq, Repr

/-- `wgpu::Operations<Color>`. -/
structure Operations where
  load : LoadOp
  store : Bool
deriving DecidableEq, Repr

/-- `wgpu::RenderPassColorAttachment` (the view is the single
full-image view of the acquired texture, carried as `Unit`). -/
structure RenderPassColorAttachment where
  view : Unit
  resolve_target : Option Unit
  ops : Operations
deriving DecidableEq, Repr

/-- `wgpu::RenderPassDescriptor`: the fields the code sets. -/
structure RenderPassDescriptor where
  label : Option String
  color_attachments : List (Option RenderPassColorAttachment)
  depth_stencil_attachment : Option Unit
deriving DecidableEq, Repr

/-- `wgpu::SurfaceError`: the variants returned by
`Surface::get_current_texture`. -/
inductive SurfaceError where
  | Timeout
  | Outdated
  | Lost
  | OutOfMemory
deriving DecidableEq, Repr

/-- `winit::window::Window`, abstracted to its identifier and the
physical inner size the windowing system reports for it. -/
structure Window where
  id : Nat
  inner_size : PhysicalSize
deriving DecidableEq, Repr

/-- An observable side effect performed against the external
collaborators (GPU backend, windowing system, standard output). -/
inductive Effect where
  | createSurface
  | requestAdapter
  | requestDevice
  | configureSurface (config : SurfaceConfiguration)
  | beginRenderPass (desc : RenderPassDescriptor)
  | draw
  | submit
  | present
  | loopExit
  | printLn (line : String)
  | eprintErr (err : SurfaceError)
deriving DecidableEq, Repr

/-- The `State` struct of `src/lib.rs`, restricted to its observable
data fields (`surface`, `device` and `queue` are opaque handles whose
uses appear in the effect trace instead). -/
structure State where
  config : SurfaceConfiguration
  size : PhysicalSize
  window : Window
  exiting : Bool
deriving DecidableEq, Repr

/-- Initialization errors surfaced by `State::new` as `Box<dyn Error>`. -/
inductive InitError where
  | SurfaceCreateError
  | NoAdapterFound
  | RequestDeviceError
deriving DecidableEq, Repr

/-- The GPU environment `State::new` negotiates with: the result of
`Instance::create_surface`, of `Instance::request_adapter` (an `Option`),
of `Adapter::request_device`, and the surface capabilities. -/
structure GpuEnv where
  create_surface : Except Unit Unit
  request_adapter : Option Unit
  request_device : Except Unit Unit
  capabilities : SurfaceCapabilities
deriving Repr

/-- The surface-format selection of `State::new` (lib.rs lines 74-79):
`caps.formats.iter().copied().find(|f| f.is_srgb()).unwrap_or(caps.formats[0])`.
`formats[0]` panics when the list is empty (`none` models the panic);
it is evaluated eagerly by `unwrap_or`, so the empty list panics whether
or not an sRGB format would have been found. -/
def choose_surface_format (formats : List TextureFormat) : Option TextureFormat :=
  match formats.head? with
  | none => none
  | some f0 => some ((formats.find? (fun f => f.is_srgb)).getD f0)

/-- `State::new` (lib.rs lines 24-101).  Returns `none` when the code
panics (an empty capability list indexed by `[0]`), otherwise the
`Result`, paired with the trace of effects performed on the way. -/
def State.new (window : Window) (env : GpuEnv) :
    Option (Except InitError State) × List Effect :=
  let size := window.inner_size
  match env.create_surface with
  | .error _ => (some (.error .SurfaceCreateError), [.createSurface])
  | .ok _ =>
    match env.request_adapter with
    | none => (some (.error .NoAdapterFound), [.createSurface, .requestAdapter])
    | some _ =>
      match env.request_device with
      | .error _ =>
          (some (.error .RequestDeviceError),
           [.createSurface, .requestAdapter, .requestDevice])
      | .ok _ =>
        match choose_surface_format env.capabilities.formats,
              env.capabilities.present_modes.head?,
              env.capabilities.alpha_modes.head? with
        | some fmt, some pm, some am =>
          let config : SurfaceConfiguration :=
            { usage := .RENDER_ATTACHMENT
              format := fmt
              width := size.width
              height := size.height
              present_mode := pm
              alpha_mode := am
              view_formats := [] }
          (some (.ok { config := config, size := size, window := window,
                       exiting := false }),
           [.createSurface, .requestAdapter, .requestDevice,
            .configureSurface config])
        | _, _, _ =>
          (none, [.createSurface, .requestAdapter, .requestDevice])

/-- `winit::event::ElementState`. -/
inductive ElementState where
  | Pressed
  | Released
deriving DecidableEq, Repr

/-- `winit::keyboard::Key`, abstracted to whether it is
`Key::Named(NamedKey::Escape)` (the only key the dispatch inspects). -/
inductive Key where
  | NamedEscape
  | OtherKey
deriving DecidableEq, Repr

/-- `winit::event::WindowEvent`, restricted to the variants the dispatch
distinguishes; every remaining variant is the `Other` case. -/
inductive WindowEvent where
  | CloseRequested
  | KeyboardInput (state : ElementState) (logical_key : Key)
  | Resized (physical_size : PhysicalSize)
  | ScaleFactorChanged
  | RedrawRequested
  | Other
deriving DecidableEq, Repr

/-- `winit::event::Event<()>`, restricted to the shapes the closure in
`run` distinguishes: a window event with its window id, `AboutToWait`,
and everything else. -/
inductive Event where
  | WindowEvent (window_id : Nat) (event : WindowEvent)
  | AboutToWait
  | Other
deriving DecidableEq, Repr

/-- `State::resize` (lib.rs lines 107-114). -/
def State.resize (s : State) (new_size : PhysicalSize) : State × List Effect :=
  if new_size.width > 0 ∧ new_size.height > 0 then
    let config := { s.config with width := new_size.width,
                                  height := new_size.height }
    ({ s with size := new_size, config := config },
     [.configureSurface config])
  else
    (s, [])

/-- `State::input` (lib.rs lines 116-118): always reports the event as
not consumed and leaves the state untouched. -/
def State.input (s : State) (_event : WindowEvent) : Bool × State :=
  (false, s)

/-- `State::update` (lib.rs line 120): a no-op. -/
def State.update (s : State) : State := s

/-- The render pass descriptor built inside `State::render`
(lib.rs lines 141-157). -/
def renderPassDesc : RenderPassDescriptor :=
  { label := some "Render Pass"
    color_attachments :=
      [some { view := ()
              resolve_target := none
              ops := { load := .Clear { r := 0.1, g := 0.2, b := 0.3, a := 1.0 }
                       store := true } }]
    depth_stencil_attachment := none }

/-- `State::render` (lib.rs lines 122-164).  `acquire` is the outcome of
`self.surface.get_current_texture()`; the `?` operator propagates its
error before any effect happens.  On success the recorded pass contains
no draw calls, the one finished command buffer is submitted, and the
texture is presented. -/
def State.render (_s : State) (acquire : Except SurfaceError Unit) :
    Except SurfaceError Unit × List Effect :=
  match acquire with
  | .error e => (.error e, [])
  | .ok _ => (.ok (), [.beginRenderPass renderPassDesc, .submit, .present])

/-- `State::exit` (lib.rs lines 166-174). -/
def State.exit (s : State) : State × List Effect :=
  if s.exiting then
    (s, [])
  else
    ({ s with exiting := true },
     [.printLn "Exiting the program...", .loopExit])

/-- The inner `match event` of the closure in `run` (lib.rs lines
192-229), reached once `input` reported the event unconsumed.
`acquire` is the environment's answer to `get_current_texture` should a
render happen during this event. -/
def dispatch_window_event (s : State) (acquire : Except SurfaceError Unit)
    (event : WindowEvent) : State × List Effect :=
  match event with
  | .CloseRequested => s.exit
  | .KeyboardInput .Pressed .NamedEscape => s.exit
  | .KeyboardInput _ _ => (s, [])
  | .Resized physical_size => s.resize physical_size
  | .ScaleFactorChanged => s.resize s.window.inner_size
  | .RedrawRequested =>
    let s1 := s.update
    match s1.render acquire with
    | (.ok _, effects) => (s1, .printLn "redraw" :: effects)
    | (.error err, effects) =>
      match err with
      | .Lost =>
        let r := s1.resize s1.size
        (r.1, .printLn "redraw" :: effects ++ .eprintErr err :: r.2)
      | .OutOfMemory =>
        let r := s1.exit
        (r.1, .printLn "redraw" :: effects ++ .eprintErr err :: r.2)
      | _ => (s1, .printLn "redraw" :: effects ++ [.eprintErr err])
  | .Other => (s, [])

/-- One step of the event-loop closure in `run` (lib.rs lines 186-237):
window events for the owned window are first offered to `input`, then
dispatched; window events for other windows, `AboutToWait` (whose
`request_redraw` call is commented out) and all other events do
nothing. -/
def handle_event (s : State) (acquire : Except SurfaceError Unit)
    (event : Event) : State × List Effect :=
  match event with
  | .WindowEvent window_id event =>
    if window_id = s.window.id then
      let c := s.input event
      if c.1 then (c.2, []) else dispatch_window_event c.2 acquire event
    else
      (s, [])
  | .AboutToWait => (s, [])
  | .Other => (s, [])

/-- True exactly on surface-reconfiguration effects. -/
def Effect.isConfigure : Effect → Bool
  | .configureSurface _ => true
  | _ => false

/-- True exactly on the adapter-request effect. -/
def Effect.isRequestAdapter : Effect → Bool
  | .requestAdapter => true
  | _ => false

/-- True exactly on command-buffer submissions. -/
def Effect.isSubmit : Effect → Bool
  | .submit => true
  | _ => false

/-- True exactly on present calls. -/
def Effect.isPresent : Effect → Bool
  | .present => true
  | _ => false

/-- True exactly on draw calls. -/
def Effect.isDraw : Effect → Bool
  | .draw => true
  | _ => false

/-- True exactly on the loop-termination signal
(`EventLoopWindowTarget::exit`). -/
def Effect.isLoopExit : Effect → Bool
  | .loopExit => true
  | _ => false

/-- True exactly on the diagnostic line printed by `State::exit`. -/
def Effect.isExitMessage : Effect → Bool
  | .printLn line => line == "Exiting the program..."
  | _ => false

/-- The data-model invariant of the spec: the configuration dimensions
mirror the stored size. -/
def sizeInvariant (s : State) : Prop :=
  s.config.width = s.size.width ∧ s.config.height = s.size.height

/-- Apply a sequence of `resize` calls to a state, keeping the final
state. -/
def applyResizes (s : State) (sizes : List PhysicalSize) : State :=
  sizes.foldl (fun st sz => (st.resize sz).1) s

theorem resize_preserves_sizeInvariant (s : State) (sz : PhysicalSize)
    (h : sizeInvariant s) : sizeInvariant (s.resize sz).1 := by
  unfold State.resize
  split
  · exact ⟨rfl, rfl⟩
  · exact h

theorem applyResizes_preserves_sizeInvariant (sizes : List PhysicalSize)
    (s : State) (h : sizeInvariant s) : sizeInvariant (applyResizes s sizes) := by
  induction sizes generalizing s with
  | nil => exact h
  | cons sz rest ih => exact ih _ (resize_preserves_sizeInvariant s sz h)

theorem new_establishes_sizeInvariant (w : Window) (env : GpuEnv) (s0 : State)
    (h : (State.new w env).1 = some (Except.ok s0)) : sizeInvariant s0 := by
  unfold State.new at h
  split at h
  · simp at h
  · split at h
    · simp at h
    · split at h
      · simp at h
      · split at h
        · simp only [Option.some.injEq, Except.ok.injEq] at h
          subst h
          exact ⟨rfl, rfl⟩
        · simp at h

/-- A sample sRGB texture format. -/
def sampleFormat : TextureFormat := { ident := 7, is_srgb := true }

/-- Sample surface capabilities: a non-sRGB format first, then an sRGB
one. -/
def sampleCapabilities : SurfaceCapabilities :=
  { formats := [{ ident := 3, is_srgb := false }, sampleFormat]
    present_modes := [{ ident := 0 }]
    alpha_modes := [{ ident := 1 }] }

/-- A sample fully-successful GPU environment. -/
def sampleEnv : GpuEnv :=
  { create_surface := .ok ()
    request_adapter := some ()
    request_device := .ok ()
    capabilities := sampleCapabilities }

/-- A sample 800x600 window. -/
def sampleWindow : Window :=
  { id := 1, inner_size := { width := 800, height := 600 } }

/-- The state `State::new` builds from `sampleWindow` and `sampleEnv`. -/
def sampleState : State :=
  { config := { usage := .RENDER_ATTACHMENT
                format := sampleFormat
                width := 800
                height := 600
                present_mode := { ident := 0 }
                alpha_mode := { ident := 1 }
                view_formats := [] }
    size := { width := 800, height := 600 }
    window := sampleWindow
    exiting := false }

/-- C1: for every state produced by `State::new` and every sequence of
`resize` calls applied to it, `config.width == size.width` and
`config.height == size.height` hold after construction and after every
resize returns, whether the resize was applied or skipped. -/
theorem new_then_resizes_config_mirrors_size (w : Window) (env : GpuEnv)
    (s0 : State) (sizes : List PhysicalSize)
    (h : (State.new w env).1 = some (Except.ok s0)) :
    sizeInvariant (applyResizes s0 sizes) :=
  applyResizes_preserves_sizeInvariant sizes s0
    (new_establishes_sizeInvariant w env s0 h)

/-- Witness for C1 at the sample window, environment and a concrete
resize sequence (one applied, one skipped). -/
theorem new_then_resizes_config_mirrors_size_witness :
    sizeInvariant (applyResizes sampleState
      [{ width := 400, height := 300 }, { width := 0, height := 300 }]) :=
  new_then_resizes_config_mirrors_size sampleWindow sampleEnv sampleState
    [{ width := 400, height := 300 }, { width := 0, height := 300 }] rfl

/-- C2: for every new size with both dimensions strictly positive,
`resize` stores the new size, sets `config.width`/`config.height` to
match, and reconfigures the surface exactly once. -/
theorem resize_positive_updates_and_configures_once (s : State) (w h : Nat)
    (hw : w > 0) (hh : h > 0) :
    (s.resize { width := w, height := h }).1.size = { width := w, height := h } ∧
    (s.resize { width := w, height := h }).1.config.width = w ∧
    (s.resize { width := w, height := h }).1.config.height = h ∧
    (s.resize { width := w, height := h }).2.countP Effect.isConfigure = 1 := by
  unfold State.resize
  rw [if_pos ⟨hw, hh⟩]
  exact ⟨rfl, rfl, rfl, rfl⟩

/-- Witness for C2 at the sample state and size 400x300. -/
theorem resize_positive_updates_and_configures_once_witness :
    (sampleState.resize { width := 400, height := 300 }).1.size
        = { width := 400, height := 300 } ∧
    (sampleState.resize { width := 400, height := 300 }).1.config.width = 400 ∧
    (sampleState.resize { width := 400, height := 300 }).1.config.height = 300 ∧
    (sampleState.resize { width := 400, height := 300 }).2.countP
        Effect.isConfigure = 1 :=
  resize_positive_updates_and_configures_once sampleState 400 300
    (by decide) (by decide)

/-- C3: for every new size with a zero dimension, `resize` is a silent
no-op: the state is unchanged, no surface reconfiguration happens, and
no error is raised (the function is total). -/
theorem resize_zero_is_noop (s : State) (sz : PhysicalSize)
    (h : sz.width = 0 ∨ sz.height = 0) :
    s.resize sz = (s, []) := by
  unfold State.resize
  rw [if_neg]
  rintro ⟨hw, hh⟩
  rcases h with h | h <;> omega

/-- Witness for C3 at the sample state and size 0x300. -/
theorem resize_zero_is_noop_witness :
    sampleState.resize { width := 0, height := 300 } = (sampleState, []) :=
  resize_zero_is_noop sampleState { width := 0, height := 300 } (Or.inl rfl)

/-- C4: on a render error during redraw dispatch the handler acts by the
error class: `Lost` calls `resize` with the currently stored size,
`OutOfMemory` calls `exit` (the state becomes exiting), and `Timeout` or
`Outdated` only log, leaving the state unchanged. -/
theorem redraw_error_policy (s : State) :
    handle_event s (.error .Lost) (.WindowEvent s.window.id .RedrawRequested) =
      ((s.resize s.size).1,
       .printLn "redraw" :: .eprintErr .Lost :: (s.resize s.size).2) ∧
    handle_event s (.error .OutOfMemory)
        (.WindowEvent s.window.id .RedrawRequested) =
      (s.exit.1, .printLn "redraw" :: .eprintErr .OutOfMemory :: s.exit.2) ∧
    (handle_event s (.error .OutOfMemory)
        (.WindowEvent s.window.id .RedrawRequested)).1.exiting = true ∧
    handle_event s (.error .Timeout) (.WindowEvent s.window.id .RedrawRequested) =
      (s, [.printLn "redraw", .eprintErr .Timeout]) ∧
    handle_event s (.error .Outdated) (.WindowEvent s.window.id .RedrawRequested) =
      (s, [.printLn "redraw", .eprintErr .Outdated]) := by
  refine ⟨?_, ?_, ?_, ?_, ?_⟩ <;>
    simp [handle_event, dispatch_window_event, State.input, State.update,
      State.render]
  · unfold State.exit
    split
    · rename_i hx
      simpa using hx
    · rfl

/-- C5: `exit` is idempotent: when already exiting it returns with no
effect; two successive calls from a running state perform the
loop-termination signal and the diagnostic message exactly once, and
`exiting` is true after both calls. -/
theorem exit_idempotent (s : State) :
    (s.exiting = true → s.exit = (s, [])) ∧
    (s.exiting = false →
      s.exit = ({ s with exiting := true },
                [.printLn "Exiting the program...", .loopExit]) ∧
      s.exit.1.exit = (s.exit.1, []) ∧
      (s.exit.2 ++ s.exit.1.exit.2).countP Effect.isLoopExit = 1 ∧
      (s.exit.2 ++ s.exit.1.exit.2).countP Effect.isExitMessage = 1 ∧
      s.exit.1.exit.1.exiting = true) := by
  constructor
  · intro h
    unfold State.exit
    rw [if_pos h]
  · intro h
    have h1 : s.exit = ({ s with exiting := true },
        [.printLn "Exiting the program...", .loopExit]) := by
      unfold State.exit
      rw [if_neg (by simp [h])]
    have h2 : s.exit.1.exit = (s.exit.1, []) := by
      rw [h1]
      unfold State.exit
      rw [if_pos rfl]
    refine ⟨h1, h2, ?_, ?_, ?_⟩ <;>
      simp [h, State.exit, Effect.isLoopExit, Effect.isExitMessage,
        List.countP, List.countP.go]

/-- Witness for C5: the two implications instantiated at the sample
running state and at the same state already marked exiting. -/
theorem exit_idempotent_witness :
    { sampleState with exiting := true }.exit
        = ({ sampleState with exiting := true }, []) ∧
    (sampleState.exit = ({ sampleState with exiting := true },
        [.printLn "Exiting the program...", .loopExit]) ∧
      sampleState.exit.1.exit = (sampleState.exit.1, []) ∧
      (sampleState.exit.2 ++ sampleState.exit.1.exit.2).countP
          Effect.isLoopExit = 1 ∧
      (sampleState.exit.2 ++ sampleState.exit.1.exit.2).countP
          Effect.isExitMessage = 1 ∧
      sampleState.exit.1.exit.1.exiting = true) :=
  ⟨(exit_idempotent { sampleState with exiting := true }).1 rfl,
   (exit_idempotent sampleState).2 rfl⟩

/-- C6: on a successful acquire, `render` returns Ok and performs
exactly one submission and one present; its single render pass clears to
RGBA (0.1, 0.2, 0.3, 1.0) with store enabled, no resolve target, no
depth/stencil attachment, and issues no draw calls; an acquisition error
is propagated unchanged. -/
theorem render_clear_frame (s : State) (e : SurfaceError) :
    s.render (.ok ()) =
      (.ok (), [.beginRenderPass renderPassDesc, .submit, .present]) ∧
    (s.render (.ok ())).2.countP Effect.isSubmit = 1 ∧
    (s.render (.ok ())).2.countP Effect.isPresent = 1 ∧
    (s.render (.ok ())).2.countP Effect.isDraw = 0 ∧
    renderPassDesc.color_attachments =
      [some { view := ()
              resolve_target := none
              ops := { load := .Clear { r := 0.1, g := 0.2, b := 0.3, a := 1.0 }
                       store := true } }] ∧
    renderPassDesc.depth_stencil_attachment = none ∧
    s.render (.error e) = (.error e, []) :=
  ⟨rfl, rfl, rfl, rfl, rfl, rfl, rfl⟩

/-- C7: the chosen surface format is the first sRGB-capable format of
the reported list, falling back to the first reported format when none
is sRGB; when at least one format is reported the selection is total
(the indexing never fails). -/
theorem surface_format_selection_total (formats : List TextureFormat)
    (h : formats ≠ []) :
    (choose_surface_format formats).isSome = true ∧
    choose_surface_format formats =
      (formats.find? (fun f => f.is_srgb)).or formats.head? := by
  match formats with
  | [] => exact absurd rfl h
  | f0 :: rest =>
    refine ⟨?_, ?_⟩ <;>
      . unfold choose_surface_format
        cases hf : (f0 :: rest).find? (fun f => f.is_srgb) <;>
          simp [hf, Option.or]

/-- Witness for C7 at the sample capability list (whose first format is
not sRGB and whose second is). -/
theorem surface_format_selection_total_witness :
    (choose_surface_format sampleCapabilities.formats).isSome = true ∧
    choose_surface_format sampleCapabilities.formats =
      (sampleCapabilities.formats.find? (fun f => f.is_srgb)).or
        sampleCapabilities.formats.head? :=
  surface_format_selection_total sampleCapabilities.formats (by simp [sampleCapabilities])

/-- C8: given that surface creation succeeded, `State::new` fails with
`NoAdapterFound` exactly when the platform offers no compatible adapter
(the error is returned to the caller), and the adapter request is made
exactly once (never retried). -/
theorem new_no_adapter_found_iff (window : Window) (env : GpuEnv)
    (h : env.create_surface = .ok ()) :
    ((State.new window env).1 = some (.error .NoAdapterFound) ↔
      env.request_adapter = none) ∧
    (State.new window env).2.countP Effect.isRequestAdapter = 1 := by
  unfold State.new
  rw [h]
  cases env.request_adapter with
  | none => simp [Effect.isRequestAdapter, List.countP, List.countP.go]
  | some a =>
    cases env.request_device with
    | error e => simp [Effect.isRequestAdapter, List.countP, List.countP.go]
    | ok u =>
      cases hf : choose_surface_format env.capabilities.formats <;>
        cases hp : env.capabilities.present_modes.head? <;>
          cases ha : env.capabilities.alpha_modes.head? <;>
            simp [hf, hp, ha, Effect.isRequestAdapter, List.countP,
              List.countP.go]

/-- Witness for C8 at the sample window and an environment with a
created surface but no adapter. -/
theorem new_no_adapter_found_iff_witness :
    ((State.new sampleWindow
        { sampleEnv with request_adapter := none }).1 =
          some (.error .NoAdapterFound) ↔
      ({ sampleEnv with request_adapter := none } : GpuEnv).request_adapter
          = none) ∧
    (State.new sampleWindow
        { sampleEnv with request_adapter := none }).2.countP
          Effect.isRequestAdapter = 1 :=
  new_no_adapter_found_iff sampleWindow
    { sampleEnv with request_adapter := none } rfl

/-- C9: `input` reports every window event as not consumed and leaves
the state unchanged, so every owned-window event falls through to the
main dispatch switch (the consumed branch is never taken). -/
theorem input_never_consumes (s : State) (acquire : Except SurfaceError Unit)
    (event : WindowEvent) :
    s.input event = (false, s) ∧
    handle_event s acquire (.WindowEvent s.window.id event) =
      dispatch_window_event s acquire event := by
  refine ⟨rfl, ?_⟩
  simp [handle_event, State.input]

/-- C10: a window event whose id differs from the owned window's id, and
any non-window event other than `AboutToWait`, produce no state change
and no effect. -/
theorem unrelated_events_ignored (s : State) (acquire : Except SurfaceError Unit)
    (window_id : Nat) (event : WindowEvent) (h : window_id ≠ s.window.id) :
    handle_event s acquire (.WindowEvent window_id event) = (s, []) ∧
    handle_event s acquire .Other = (s, []) := by
  refine ⟨?_, rfl⟩
  simp [handle_event, h]

/-- Witness for C10: a close request for a foreign window id at the
sample state. -/
theorem unrelated_events_ignored_witness :
    handle_event sampleState (.ok ()) (.WindowEvent 2 .CloseRequested)
        = (sampleState, []) ∧
    handle_event sampleState (.ok ()) .Other = (sampleState, []) :=
  unrelated_events_ignored sampleState (.ok ()) 2 .CloseRequested (by decide)

end WgpuLearning
